import Mathlib

/-!
Shallow embedding of the single-file Streamlit program
`streamlit_UI_final.py` (movie-comparison human evaluation UI).

The script is re-executed on every user interaction; its per-interaction
behaviour is embedded as a step function on an explicit state.  The
mutable `st.session_state` fields (`ldapid`, `scene_idx`, `scene_results`,
`submitted_movie`) become the fields of `AppState`; the files written by
`save_progress` into `saved_annotations/` become the `store` field, an
association list from file name to written document, most recent write
first (rewriting a file with `open(path, "w")` is last-write-wins, which
first-match lookup on the cons-list reproduces).

A widget event that cannot be delivered -- because the script stopped at
the identity gate (`st.stop()`), because the section holding the widget
is not rendered on the current run, or because the run raises before
reaching the widget -- is embedded as a rejected step (`Except.error`):
the session state and the store are untouched, exactly as in the source,
where the handler body simply never runs.
-/

namespace StreamlitUI

/-- One record of the scene catalog (`SCENES[sid]` in the script):
field names follow the JSON keys read by the script. -/
structure SceneRecord where
  scene_id : String
  shots : List String
  movie_A_image_paths : List String
  movie_B_image_paths : List String
deriving DecidableEq, Repr

/-- The three per-movie scene scores gathered by the scene form
(`bgA/charA/cineA` resp. `bgB/charB/cineB`, each an `st.radio` over
`[1,2,3,4,5]`).  Scores are modelled as unconstrained integers: the
range restriction lives in the widgets, not in the handler. -/
structure AxisScores where
  background : Int
  character : Int
  cinematic : Int
deriving DecidableEq, Repr

/-- The three pairwise scene choices (`st.radio` over
`["Movie A", "Movie B", "Tie"]`), modelled as unconstrained strings. -/
structure PairwiseChoice where
  background : String
  character : String
  cinematic : String
deriving DecidableEq, Repr

/-- The payload of one press of the `Save Scene and Continue` button:
everything the handler reads from the widgets. -/
structure SceneInput where
  movie_A : AxisScores
  movie_B : AxisScores
  pairwise : PairwiseChoice
  comment : String
deriving DecidableEq, Repr

/-- The dict appended to `st.session_state.scene_results` by the scene
handler (source lines 211-229). -/
structure SceneResult where
  scene_id : String
  movie_A : AxisScores
  movie_B : AxisScores
  pairwise : PairwiseChoice
  comment : String
deriving DecidableEq, Repr

/-- The three per-movie movie-level scores (`narA/charA_m/spaceA` resp.
`narB/charB_m/spaceB`). -/
structure MovieAxisScores where
  narrative : Int
  character : Int
  spatial : Int
deriving DecidableEq, Repr

/-- The three movie-level pairwise choices. -/
structure MoviePairwise where
  narrative : String
  character : String
  spatial : String
deriving DecidableEq, Repr

/-- The dict passed as `movie_level` to `save_progress` by the
`Submit Final Evaluation` handler (source lines 256-272). -/
structure MovieLevelResult where
  movie_A : MovieAxisScores
  movie_B : MovieAxisScores
  pairwise : MoviePairwise
deriving DecidableEq, Repr

/-- The JSON document written by `save_progress` (source lines 46-56):
top-level keys `ldapid`, `progress.completed_scenes`,
`progress.total_scenes`, `scene_level` and, when present, `movie_level`.
`ldapid` is an `Option` because the Python session field starts as
`None`; reachable writes always carry a string. -/
structure Snapshot where
  ldapid : Option String
  completed_scenes : Nat
  total_scenes : Nat
  scene_level : List SceneResult
  movie_level : Option MovieLevelResult
deriving DecidableEq, Repr

/-- The mutable session state plus the persisted files.  The first four
fields are the `st.session_state` entries initialised in source lines
28-38; `store` is the contents of `saved_annotations/`. -/
structure AppState where
  ldapid : Option String
  scene_idx : Nat
  scene_results : List SceneResult
  submitted_movie : Bool
  store : List (String × Snapshot)
deriving DecidableEq, Repr

/-- Python's `str.strip()` (no argument): remove leading and trailing
whitespace.  Embedded structurally over the character list so that it
evaluates by kernel reduction. -/
def pyStrip (s : String) : String :=
  ⟨((s.data.dropWhile Char.isWhitespace).reverse.dropWhile Char.isWhitespace).reverse⟩

deriving instance DecidableEq for Except

/-- Fresh session state (source lines 28-38) over an empty save
directory. -/
def initState : AppState :=
  { ldapid := none
    scene_idx := 0
    scene_results := []
    submitted_movie := false
    store := [] }

/-- The file name `f"annotations_{st.session_state.ldapid}.json"` of
source line 58; Python formats `None` as the string `None`. -/
def pyKey : Option String → String
  | some s => "annotations_" ++ s ++ ".json"
  | none => "annotations_" ++ "None" ++ ".json"

/-- The document built by `save_progress` (source lines 46-56) from the
current session state; `movie_level` is included exactly when the
optional argument is passed. -/
def mkSnapshot (total : Nat) (st : AppState) (movie_level : Option MovieLevelResult) :
    Snapshot :=
  { ldapid := st.ldapid
    completed_scenes := st.scene_idx
    total_scenes := total
    scene_level := st.scene_results
    movie_level := movie_level }

/-- `save_progress` (source lines 44-60): build the document and write
it to `annotations_{ldapid}.json`, replacing any previous version of
that file (the new write shadows older entries for the same key). -/
def save_progress (total : Nat) (st : AppState) (movie_level : Option MovieLevelResult) :
    AppState :=
  { st with store := (pyKey st.ldapid, mkSnapshot total st movie_level) :: st.store }

/-- Modelled from the spec: the repository writes the per-identity file
but never reads it back -- `ProgressStore.load(identity) -> snapshot |
NotFound` exists only in the spec.  It is modelled as lookup of the most
recent write of that identity's file, i.e. the current contents of
`annotations_{identity}.json` if the file exists. -/
def storeLoad (identity : String) (store : List (String × Snapshot)) : Option Snapshot :=
  (store.find? (fun e => e.1 == pyKey (some identity))).map Prod.snd

/-- `get_scene` (source lines 73-76): `None` once the cursor has passed
the last scene, else the scene record at the cursor. -/
def get_scene (catalog : List SceneRecord) (st : AppState) : Option SceneRecord :=
  if catalog.length ≤ st.scene_idx then none
  else catalog.get? st.scene_idx

/-- `load_images` (source lines 63-70).  `tryOpen` stands for
`Image.open`: `some img` when the path opens, `none` when it raises
(any exception -- the bare `except` catches them all and appends
`None`). -/
def load_images {α : Type} (tryOpen : String → Option α) : List String → List (Option α)
  | [] => []
  | p :: ps => tryOpen p :: load_images tryOpen ps

/-- The result dict appended for scene `sc` (source lines 211-229): the
handler takes `scene_id` from the catalog record at the cursor. -/
def mkResult (sc : SceneRecord) (inp : SceneInput) : SceneResult :=
  { scene_id := sc.scene_id
    movie_A := inp.movie_A
    movie_B := inp.movie_B
    pairwise := inp.pairwise
    comment := inp.comment }

/-- The progress fraction of source line 110,
`st.session_state.scene_idx / TOTAL_SCENES`: Python true division,
which raises `ZeroDivisionError` when the catalog is empty.  Exact
rationals stand in for Python floats; the failure condition (divisor
zero) is identical. -/
def progressValue (total : Nat) (st : AppState) : Except Unit ℚ :=
  if total = 0 then .error ()
  else .ok ((st.scene_idx : ℚ) / (total : ℚ))

/-- Error outcomes of one interaction, following the error taxonomy the
spec uses for the same situations.  `zeroDivisionError` is the Python
`ZeroDivisionError` raised by source line 110 before any widget below
it can run. -/
inductive Err where
  | validationError
  | stateError
  | zeroDivisionError
deriving DecidableEq, Repr

/-- One user interaction.  `saveScene` carries `sid`, the scene id the
submission is for, matching the spec's `submitScene(sceneId, ...)`
signature; the source handler has no such channel and gives the
submitted id no role (see `step`). -/
inductive Event where
  | submitIdentity (raw : String)
  | saveScene (sid : String) (inp : SceneInput)
  | submitFinal (inp : MovieLevelResult)
deriving DecidableEq, Repr

/-- One re-execution of the script processing one widget event.

* `submitIdentity` (source lines 88-104): the gate renders only while
  `ldapid is None`; an empty trimmed id shows `st.error` and changes
  nothing; otherwise the trimmed id is stored and `save_progress()`
  runs, all before the `st.rerun()`.
* `saveScene` (source lines 149-233): unreachable before the gate
  (`st.stop()`), unreachable when the empty catalog makes line 110
  raise `ZeroDivisionError`, and not rendered when `get_scene()` is
  `None`.  The handler validates nothing and ignores the submitted
  scene id: it appends `mkResult` for the catalog record at the
  cursor, increments the cursor, and saves.
* `submitFinal` (source lines 239-277): additionally gated on
  `not st.session_state.submitted_movie`; the handler saves with the
  movie-level payload and then sets `submitted_movie`. -/
def step (catalog : List SceneRecord) (e : Event) (st : AppState) :
    Except Err AppState :=
  match e with
  | .submitIdentity raw =>
      if st.ldapid ≠ none then .error .stateError
      else if pyStrip raw = "" then .error .validationError
      else .ok (save_progress catalog.length
        { st with ldapid := some (pyStrip raw) } none)
  | .saveScene _sid inp =>
      if st.ldapid = none then .error .stateError
      else if catalog.length = 0 then .error .zeroDivisionError
      else
        match get_scene catalog st with
        | none => .error .stateError
        | some sc =>
            .ok (save_progress catalog.length
              { st with
                scene_results := st.scene_results ++ [mkResult sc inp]
                scene_idx := st.scene_idx + 1 } none)
  | .submitFinal inp =>
      if st.ldapid = none then .error .stateError
      else if catalog.length = 0 then .error .zeroDivisionError
      else if (get_scene catalog st).isSome then .error .stateError
      else if st.submitted_movie then .error .stateError
      else .ok { save_progress catalog.length st (some inp) with
                 submitted_movie := true }

/-- Apply one event; a rejected event leaves the state (and the store)
unchanged, as in the source, where the handler body never runs. -/
def runEvent (catalog : List SceneRecord) (e : Event) (st : AppState) : AppState :=
  match step catalog e st with
  | .ok st' => st'
  | .error _ => st

/-- Apply a sequence of events in order. -/
def run (catalog : List SceneRecord) : List Event → AppState → AppState
  | [], st => st
  | e :: es, st => run catalog es (runEvent catalog e st)

/-- States reachable from a fresh session. -/
def reachable (catalog : List SceneRecord) (st : AppState) : Prop :=
  ∃ es : List Event, run catalog es initState = st

/-- The session right after a successful identity submission. -/
def freshSession (catalog : List SceneRecord) (raw : String) : AppState :=
  runEvent catalog (.submitIdentity raw) initState

/-- Validity of a scene submission in the spec's sense: the six scores
are integers in `[1,5]` and the three pairwise fields are among the
three options offered by the widgets (`Movie A`, `Movie B`, `Tie` --
the spec writes them `A`, `B`, `Tie`). -/
def validRating (n : Int) : Prop := 1 ≤ n ∧ n ≤ 5

/-- A pairwise field is one of the three radio options. -/
def validPair (s : String) : Prop :=
  s = "Movie A" ∨ s = "Movie B" ∨ s = "Tie"

/-- All nine judgment fields of a scene submission are valid. -/
def ValidSceneInput (inp : SceneInput) : Prop :=
  validRating inp.movie_A.background ∧ validRating inp.movie_A.character ∧
  validRating inp.movie_A.cinematic ∧ validRating inp.movie_B.background ∧
  validRating inp.movie_B.character ∧ validRating inp.movie_B.cinematic ∧
  validPair inp.pairwise.background ∧ validPair inp.pairwise.character ∧
  validPair inp.pairwise.cinematic

instance : DecidablePred validRating := fun n =>
  inferInstanceAs (Decidable (1 ≤ n ∧ n ≤ 5))

instance : DecidablePred validPair := fun s =>
  inferInstanceAs (Decidable (s = "Movie A" ∨ s = "Movie B" ∨ s = "Tie"))

instance : DecidablePred ValidSceneInput := fun inp =>
  inferInstanceAs (Decidable (And _ _))

/-! Concrete data used to exercise the model on closed inputs (the
two-scene end-to-end scenario of the spec, section 8). -/

/-- First demo catalog record. -/
def demoScene1 : SceneRecord :=
  { scene_id := "s1"
    shots := ["shot one"]
    movie_A_image_paths := ["a1.png"]
    movie_B_image_paths := ["b1.png"] }

/-- Second demo catalog record. -/
def demoScene2 : SceneRecord :=
  { scene_id := "s2"
    shots := ["shot two"]
    movie_A_image_paths := ["a2.png"]
    movie_B_image_paths := ["b2.png"] }

/-- A two-scene catalog. -/
def demoCatalog : List SceneRecord := [demoScene1, demoScene2]

/-- A scene submission with all fields among the widget options. -/
def demoInput : SceneInput :=
  { movie_A := ⟨3, 4, 5⟩
    movie_B := ⟨2, 2, 2⟩
    pairwise := ⟨"Movie A", "Movie A", "Tie"⟩
    comment := "" }

/-- A scene submission with an out-of-range score and an out-of-range
pairwise string; no widget can produce it, and the handler does not
check for it. -/
def badInput : SceneInput :=
  { movie_A := ⟨0, 4, 5⟩
    movie_B := ⟨2, 2, 7⟩
    pairwise := ⟨"X", "Movie A", "Tie"⟩
    comment := "" }

/-- A movie-level submission with all fields among the widget options. -/
def demoMovie : MovieLevelResult :=
  { movie_A := ⟨5, 5, 5⟩
    movie_B := ⟨1, 1, 1⟩
    pairwise := ⟨"Movie A", "Movie A", "Movie A"⟩ }

/-- The demo session right after submitting identity `abc`. -/
def demoFresh : AppState := freshSession demoCatalog "abc"

/-- The demo session after both scenes have been submitted. -/
def demoDone : AppState :=
  run demoCatalog [.saveScene "s1" demoInput, .saveScene "s2" demoInput] demoFresh

/-- The demo session after the final movie-level submission. -/
def demoComplete : AppState := runEvent demoCatalog (.submitFinal demoMovie) demoDone

/-- The state invariant backing the completion claims: once the final
evaluation has been submitted, every scene has been passed and the
identity is set. -/
def Inv (catalog : List SceneRecord) (st : AppState) : Prop :=
  st.submitted_movie = true → catalog.length ≤ st.scene_idx ∧ st.ldapid ≠ none

/-! ### Helper lemmas -/

theorem get_scene_some_lt {catalog : List SceneRecord} {st : AppState} {sc : SceneRecord}
    (h : get_scene catalog st = some sc) : st.scene_idx < catalog.length := by
  unfold get_scene at h
  split at h
  · exact absurd h (by simp)
  · omega

theorem get_scene_of_lt {catalog : List SceneRecord} {st : AppState}
    (h : st.scene_idx < catalog.length) :
    get_scene catalog st = some (catalog.get ⟨st.scene_idx, h⟩) := by
  unfold get_scene
  rw [if_neg (by omega)]
  exact List.get?_eq_get h

theorem get_scene_none_le {catalog : List SceneRecord} {st : AppState}
    (h : ¬ (get_scene catalog st).isSome) : catalog.length ≤ st.scene_idx := by
  by_contra hlt
  rw [get_scene_of_lt (by omega)] at h
  simp at h

theorem load_images_get {α : Type} (f : String → Option α) :
    ∀ (paths : List String) (i : Nat), (load_images f paths)[i]? = (paths[i]?).map f
  | [], i => by simp [load_images]
  | p :: ps, 0 => by simp [load_images]
  | p :: ps, i + 1 => by simpa [load_images] using load_images_get f ps i

theorem load_images_len {α : Type} (f : String → Option α) :
    ∀ paths : List String, (load_images f paths).length = paths.length
  | [] => rfl
  | p :: ps => by simpa [load_images] using load_images_len f ps

theorem zipWith_mkResult_get :
    ∀ (l1 : List SceneRecord) (l2 : List SceneInput) (i : Nat),
      i < l1.length → i < l2.length →
      ((List.zipWith mkResult l1 l2)[i]?).map SceneResult.scene_id =
        (l1[i]?).map SceneRecord.scene_id
  | [], _, i, h1, _ => absurd h1 (by simp)
  | _ :: _, [], i, _, h2 => absurd h2 (by simp)
  | a :: l1, b :: l2, 0, _, _ => by simp [mkResult]
  | a :: l1, b :: l2, i + 1, h1, h2 => by
      simpa using zipWith_mkResult_get l1 l2 i (by simpa using h1) (by simpa using h2)

/-- Explicit form of the state right after a successful identity
submission. -/
theorem freshSession_eq (catalog : List SceneRecord) (raw : String)
    (h : pyStrip raw ≠ "") :
    freshSession catalog raw =
      { ldapid := some (pyStrip raw)
        scene_idx := 0
        scene_results := []
        submitted_movie := false
        store := [(pyKey (some (pyStrip raw)),
          { ldapid := some (pyStrip raw)
            completed_scenes := 0
            total_scenes := catalog.length
            scene_level := []
            movie_level := none })] } := by
  simp [freshSession, runEvent, step, initState, h, save_progress, mkSnapshot]

/-! ### C6: the identity gate -/

/-- C6: submitting an identity whose stripped form is empty fails with
ValidationError, creating no session state and writing nothing; a
non-empty stripped form sets the identity to the stripped input, leaves
the cursor at 0 and the results empty, and persists exactly one
snapshot. -/
theorem submitIdentity_gate (catalog : List SceneRecord) (raw : String) :
    (pyStrip raw = "" →
      step catalog (.submitIdentity raw) initState = .error .validationError ∧
      runEvent catalog (.submitIdentity raw) initState = initState) ∧
    (pyStrip raw ≠ "" →
      step catalog (.submitIdentity raw) initState =
        .ok { ldapid := some (pyStrip raw)
              scene_idx := 0
              scene_results := []
              submitted_movie := false
              store := [(pyKey (some (pyStrip raw)),
                { ldapid := some (pyStrip raw)
                  completed_scenes := 0
                  total_scenes := catalog.length
                  scene_level := []
                  movie_level := none })] }) := by
  constructor
  · intro h
    constructor
    · simp [step, initState, h]
    · simp [runEvent, step, initState, h]
  · intro h
    simp [step, initState, h, save_progress, mkSnapshot]

/-- Closed instance of `submitIdentity_gate`: the whitespace-only id is
rejected without any write, and a padded id starts a session with the
stripped identity, cursor 0, no results, and one stored snapshot. -/
theorem submitIdentity_gate_witness :
    pyStrip "   " = "" ∧
    step demoCatalog (.submitIdentity "   ") initState = .error .validationError ∧
    runEvent demoCatalog (.submitIdentity "   ") initState = initState ∧
    pyStrip " abc " ≠ "" ∧
    step demoCatalog (.submitIdentity " abc ") initState =
      .ok { ldapid := some (pyStrip " abc ")
            scene_idx := 0
            scene_results := []
            submitted_movie := false
            store := [(pyKey (some (pyStrip " abc ")),
              { ldapid := some (pyStrip " abc ")
                completed_scenes := 0
                total_scenes := demoCatalog.length
                scene_level := []
                movie_level := none })] } :=
  ⟨by decide,
   ((submitIdentity_gate demoCatalog "   ").1 (by decide)).1,
   ((submitIdentity_gate demoCatalog "   ").1 (by decide)).2,
   by decide,
   (submitIdentity_gate demoCatalog " abc ").2 (by decide)⟩

/-! ### C8 and C10: the image loader -/

/-- C8: the image loader is total: whenever position `i` of the path
list holds `p`, the result list holds an entry at `i` -- the opened
image when `Image.open` succeeds on `p` and the `None` sentinel when it
raises -- so no input path can make the loader itself fail. -/
theorem load_images_never_raises {α : Type} (tryOpen : String → Option α)
    (paths : List String) (i : Nat) (p : String) (hp : paths[i]? = some p) :
    (load_images tryOpen paths)[i]? = some (tryOpen p) ∧
    (tryOpen p = none → (load_images tryOpen paths)[i]? = some none) := by
  have h := load_images_get tryOpen paths i
  rw [hp] at h
  exact ⟨h, fun hnone => by rw [h]; simp [hnone]⟩

/-- Closed instance of `load_images_never_raises`: a list with one
readable and one unreadable path maps to the image and the sentinel. -/
theorem load_images_never_raises_witness :
    (["a1.png", "missing.png"] : List String)[1]? = some "missing.png" ∧
    (load_images (fun q => if q = "a1.png" then some 1 else none)
      ["a1.png", "missing.png"])[1]? = some none :=
  ⟨by decide,
   (load_images_never_raises (fun q => if q = "a1.png" then some 1 else none)
      ["a1.png", "missing.png"] 1 "missing.png" (by decide)).2 (by decide)⟩

/-- C10: the image loader keeps per-shot alignment: the result list has
exactly the length of the path list and its `i`-th entry is the image
opened from the `i`-th path, or the `None` sentinel when that path does
not open. -/
theorem load_images_aligned {α : Type} (tryOpen : String → Option α)
    (paths : List String) :
    (load_images tryOpen paths).length = paths.length ∧
    ∀ i : Nat, (load_images tryOpen paths)[i]? = (paths[i]?).map tryOpen :=
  ⟨load_images_len tryOpen paths, load_images_get tryOpen paths⟩

/-! ### C9: persistence round-trip -/

/-- C9: after any save performed by `save_progress` for a session whose
identity is `u`, loading the stored record of `u` returns exactly the
document that was written. -/
theorem store_roundtrip (total : Nat) (st : AppState)
    (ml : Option MovieLevelResult) (u : String) (h : st.ldapid = some u) :
    storeLoad u (save_progress total st ml).store = some (mkSnapshot total st ml) := by
  simp [storeLoad, save_progress, h, List.find?]

/-- Closed instance of `store_roundtrip` on the demo session. -/
theorem store_roundtrip_witness :
    demoFresh.ldapid = some "abc" ∧
    storeLoad "abc" (save_progress 2 demoFresh (some demoMovie)).store =
      some (mkSnapshot 2 demoFresh (some demoMovie)) :=
  ⟨by decide, store_roundtrip 2 demoFresh (some demoMovie) "abc" (by decide)⟩

/-! ### C3: no scene-id check exists -/

/-- C3 counterexample: in the demo Scening state the catalog scene id at
the cursor is `s1`, yet a submission carrying the unrelated id `zzz` is
not rejected with a StateError: it succeeds, advances the cursor and
performs a persistence write. -/
theorem saveScene_no_id_check_cex :
    (get_scene demoCatalog demoFresh).map SceneRecord.scene_id = some "s1" ∧
    ("zzz" : String) ≠ "s1" ∧
    step demoCatalog (.saveScene "zzz" demoInput) demoFresh ≠
      Except.error Err.stateError ∧
    (runEvent demoCatalog (.saveScene "zzz" demoInput) demoFresh).scene_idx =
      demoFresh.scene_idx + 1 ∧
    (runEvent demoCatalog (.saveScene "zzz" demoInput) demoFresh).store.length =
      demoFresh.store.length + 1 := by
  decide

/-- C3 amended: the scene handler gives the submitted scene id no role.
In the Scening state (identity set, a scene at the cursor) a submission
succeeds for every submitted id, the outcome is the same for any two
ids, and the appended result carries the catalog scene id at the
cursor -- so an out-of-order id is never recorded, but nothing is
rejected either. -/
theorem saveScene_ignores_sid (catalog : List SceneRecord) (st : AppState)
    (u : String) (sc : SceneRecord) (sid sid' : String) (inp : SceneInput)
    (hid : st.ldapid = some u) (hsc : get_scene catalog st = some sc) :
    step catalog (.saveScene sid inp) st = step catalog (.saveScene sid' inp) st ∧
    ∃ st', step catalog (.saveScene sid inp) st = .ok st' ∧
      st'.scene_idx = st.scene_idx + 1 ∧
      st'.scene_results = st.scene_results ++ [mkResult sc inp] ∧
      (mkResult sc inp).scene_id = sc.scene_id := by
  have hlt := get_scene_some_lt hsc
  have hpos : catalog.length ≠ 0 := by omega
  have hstep : ∀ s : String, step catalog (.saveScene s inp) st =
      .ok (save_progress catalog.length
        { st with scene_results := st.scene_results ++ [mkResult sc inp]
                  scene_idx := st.scene_idx + 1 } none) := by
    intro s
    simp [step, hid, hpos, hsc]
  refine ⟨(hstep sid).trans (hstep sid').symm, _, hstep sid, ?_, ?_, rfl⟩
  · simp [save_progress]
  · simp [save_progress]

/-- Closed instance of `saveScene_ignores_sid`: the ids `zzz` and `s1`
produce the same successful outcome from the demo Scening state, and
the recorded id is the catalog id `s1`. -/
theorem saveScene_ignores_sid_witness :
    demoFresh.ldapid = some "abc" ∧
    get_scene demoCatalog demoFresh = some demoScene1 ∧
    (step demoCatalog (.saveScene "zzz" demoInput) demoFresh =
        step demoCatalog (.saveScene "s1" demoInput) demoFresh ∧
      ∃ st', step demoCatalog (.saveScene "zzz" demoInput) demoFresh = .ok st' ∧
        st'.scene_idx = demoFresh.scene_idx + 1 ∧
        st'.scene_results = demoFresh.scene_results ++ [mkResult demoScene1 demoInput] ∧
        (mkResult demoScene1 demoInput).scene_id = demoScene1.scene_id) :=
  ⟨by decide, by decide,
   saveScene_ignores_sid demoCatalog demoFresh "abc" demoScene1 "zzz" "s1" demoInput
     (by decide) (by decide)⟩

/-! ### C4: no field validation exists -/

/-- C4 counterexample: a submission whose scores include `0` and `7` and
whose pairwise field is the string `X` is not rejected with a
ValidationError: it succeeds, mutates the session and performs a
persistence write. -/
theorem saveScene_no_validation_cex :
    ¬ ValidSceneInput badInput ∧
    step demoCatalog (.saveScene "s1" badInput) demoFresh ≠
      Except.error Err.validationError ∧
    (runEvent demoCatalog (.saveScene "s1" badInput) demoFresh).scene_results ≠
      demoFresh.scene_results ∧
    (runEvent demoCatalog (.saveScene "s1" badInput) demoFresh).store.length =
      demoFresh.store.length + 1 := by
  decide

/-- C4 amended: the scene handler validates nothing: in the Scening
state a submission succeeds even when some score is outside `[1,5]` or
some pairwise field is outside the three options -- the result is
appended, the cursor advances and one persistence write occurs.  Field
validity is enforced only by the radio widgets, which offer exactly the
values 1 to 5 and the three choices. -/
theorem saveScene_accepts_invalid (catalog : List SceneRecord) (st : AppState)
    (u : String) (sc : SceneRecord) (sid : String) (inp : SceneInput)
    (hid : st.ldapid = some u) (hsc : get_scene catalog st = some sc)
    (hbad : ¬ ValidSceneInput inp) :
    ∃ st', step catalog (.saveScene sid inp) st = .ok st' ∧
      st'.scene_results.length = st.scene_results.length + 1 ∧
      st'.scene_idx = st.scene_idx + 1 ∧
      st'.store.length = st.store.length + 1 := by
  have hlt := get_scene_some_lt hsc
  have hpos : catalog.length ≠ 0 := by omega
  have hstep : step catalog (.saveScene sid inp) st =
      .ok (save_progress catalog.length
        { st with scene_results := st.scene_results ++ [mkResult sc inp]
                  scene_idx := st.scene_idx + 1 } none) := by
    simp [step, hid, hpos, hsc]
  refine ⟨_, hstep, ?_, ?_, ?_⟩ <;> simp [save_progress]

/-- Closed instance of `saveScene_accepts_invalid` at the malformed
input. -/
theorem saveScene_accepts_invalid_witness :
    ¬ ValidSceneInput badInput ∧
    (∃ st', step demoCatalog (.saveScene "s1" badInput) demoFresh = .ok st' ∧
      st'.scene_results.length = demoFresh.scene_results.length + 1 ∧
      st'.scene_idx = demoFresh.scene_idx + 1 ∧
      st'.store.length = demoFresh.store.length + 1) :=
  ⟨by decide,
   saveScene_accepts_invalid demoCatalog demoFresh "abc" demoScene1 "s1" badInput
     (by decide) (by decide) (by decide)⟩

/-! ### C5: the final evaluation is accepted at most once -/

/-- C5: after a successful final submission the written file carries the
submitted movie-level result, and a second final submission is rejected
with a StateError, leaving the session and the stored result exactly as
they were. -/
theorem submitFinal_at_most_once (catalog : List SceneRecord) (st st' : AppState)
    (inp inp' : MovieLevelResult)
    (h : step catalog (.submitFinal inp) st = .ok st') :
    (st'.store.head?).map (fun kv => kv.2.movie_level) = some (some inp) ∧
    step catalog (.submitFinal inp') st' = .error .stateError ∧
    runEvent catalog (.submitFinal inp') st' = st' := by
  simp only [step] at h
  split_ifs at h with h1 h2 h3 h4
  rw [Except.ok.injEq] at h
  subst h
  refine ⟨by simp [save_progress, mkSnapshot], ?_, ?_⟩
  · simp [step, save_progress, mkSnapshot, h1, h2, h3]
  · simp [runEvent, step, save_progress, mkSnapshot, h1, h2, h3]

/-- Closed instance of `submitFinal_at_most_once` on the completed demo
session. -/
theorem submitFinal_at_most_once_witness :
    step demoCatalog (.submitFinal demoMovie) demoDone = .ok demoComplete ∧
    ((demoComplete.store.head?).map (fun kv => kv.2.movie_level) =
        some (some demoMovie) ∧
      step demoCatalog (.submitFinal demoMovie) demoComplete =
        .error .stateError ∧
      runEvent demoCatalog (.submitFinal demoMovie) demoComplete = demoComplete) :=
  ⟨by decide,
   submitFinal_at_most_once demoCatalog demoDone demoComplete demoMovie demoMovie
     (by decide)⟩

/-! ### C7: the empty catalog -/

/-- C7 counterexample: with an empty catalog the identity submission
itself succeeds and there is indeed no scene to annotate, but the
post-identity flow does not complete without failure: the progress
fraction of source line 110 divides by zero, and the run triggered by
any later widget event raises the same ZeroDivisionError before
reaching a handler. -/
theorem empty_catalog_cex :
    step ([] : List SceneRecord) (.submitIdentity "abc") initState =
      .ok (freshSession [] "abc") ∧
    (freshSession [] "abc").ldapid = some "abc" ∧
    get_scene [] (freshSession [] "abc") = none ∧
    progressValue (List.length ([] : List SceneRecord)) (freshSession [] "abc") =
      .error () ∧
    step ([] : List SceneRecord) (.submitFinal demoMovie) (freshSession [] "abc") =
      .error .zeroDivisionError := by
  decide

/-- C7 amended: with an empty catalog a successful identity submission
does leave the session with no scene at the cursor (the movie-level
phase per the spec), but the post-identity flow then fails: computing
the displayed progress fraction raises ZeroDivisionError, and neither a
scene nor a movie-level submission can ever be processed. -/
theorem empty_catalog_behavior (raw : String) (h : pyStrip raw ≠ "") :
    ∃ st', step ([] : List SceneRecord) (.submitIdentity raw) initState = .ok st' ∧
      st'.ldapid = some (pyStrip raw) ∧
      get_scene [] st' = none ∧
      progressValue (List.length ([] : List SceneRecord)) st' = .error () ∧
      (∀ inp, step ([] : List SceneRecord) (.submitFinal inp) st' =
        .error .zeroDivisionError) ∧
      ∀ sid inp, step ([] : List SceneRecord) (.saveScene sid inp) st' =
        .error .zeroDivisionError := by
  have hstep : step ([] : List SceneRecord) (.submitIdentity raw) initState =
      .ok (save_progress 0 { initState with ldapid := some (pyStrip raw) } none) := by
    simp [step, initState, h]
  refine ⟨_, hstep, ?_, ?_, ?_, ?_, ?_⟩
  · simp [save_progress, initState]
  · simp [get_scene, save_progress, initState]
  · simp [progressValue]
  · intro inp
    simp [step, save_progress, initState]
  · intro sid inp
    simp [step, save_progress, initState]

/-! ### C1: scene iteration in catalog order -/

/-- Running a block of scene submissions from any Scening state: the
cursor advances by one per submission and the results grow by exactly
the block of `mkResult` records taken from the catalog at the cursor
onward, in order. -/
theorem run_scenes (catalog : List SceneRecord) :
    ∀ (rs : List SceneInput) (sids : List String) (st : AppState) (u : String),
      st.ldapid = some u →
      rs.length ≤ sids.length →
      st.scene_idx + rs.length ≤ catalog.length →
      (run catalog (List.zipWith Event.saveScene sids rs) st).ldapid = some u ∧
      (run catalog (List.zipWith Event.saveScene sids rs) st).scene_idx =
        st.scene_idx + rs.length ∧
      (run catalog (List.zipWith Event.saveScene sids rs) st).scene_results =
        st.scene_results ++
          List.zipWith mkResult ((catalog.drop st.scene_idx).take rs.length) rs
  | [], sids, st, u, hid, _, _ => by
      simp [run, hid]
  | r :: rs, sids, st, u, hid, hlen, hle => by
      cases sids with
      | nil => simp at hlen
      | cons s sids =>
        have hlt : st.scene_idx < catalog.length := by
          simp only [List.length_cons] at hle
          omega
        have hpos : catalog.length ≠ 0 := by omega
        have hget := @get_scene_of_lt catalog st hlt
        have hstep : step catalog (.saveScene s r) st =
            .ok (save_progress catalog.length
              { st with
                scene_results :=
                  st.scene_results ++ [mkResult (catalog.get ⟨st.scene_idx, hlt⟩) r]
                scene_idx := st.scene_idx + 1 } none) := by
          simp [step, hid, hpos, hget]
        have hrun : run catalog (List.zipWith Event.saveScene (s :: sids) (r :: rs)) st =
            run catalog (List.zipWith Event.saveScene sids rs)
              (save_progress catalog.length
                { st with
                  scene_results :=
                    st.scene_results ++ [mkResult (catalog.get ⟨st.scene_idx, hlt⟩) r]
                  scene_idx := st.scene_idx + 1 } none) := by
          simp [run, runEvent, hstep]
        obtain ⟨ih1, ih2, ih3⟩ :=
          run_scenes catalog rs sids
            (save_progress catalog.length
              { st with
                scene_results :=
                  st.scene_results ++ [mkResult (catalog.get ⟨st.scene_idx, hlt⟩) r]
                scene_idx := st.scene_idx + 1 } none) u
            (by simp [save_progress, hid])
            (by simpa using Nat.le_of_succ_le_succ (by simpa using hlen))
            (by
              simp only [save_progress, List.length_cons] at hle ⊢
              omega)
        rw [hrun]
        refine ⟨ih1, ?_, ?_⟩
        · rw [ih2]
          simp [save_progress]
          omega
        · rw [ih3]
          simp only [save_progress]
          rw [List.drop_eq_getElem_cons hlt]
          simp [List.zipWith, List.append_assoc]
  termination_by rs => rs.length

/-- C1: from a fresh session, any sequence of scene submissions in
catalog order leaves the cursor at the number of submissions, the
results list with that length, and the `i`-th recorded scene id equal
to the catalog's `i`-th scene id. -/
theorem scene_flow_in_order (catalog : List SceneRecord) (raw : String)
    (rs : List SceneInput) (st' : AppState)
    (hraw : pyStrip raw ≠ "")
    (hn : rs.length ≤ catalog.length)
    (hv : ∀ r ∈ rs, ValidSceneInput r)
    (hst : st' = run catalog
      (List.zipWith Event.saveScene (catalog.map SceneRecord.scene_id) rs)
      (freshSession catalog raw)) :
    st'.scene_idx = rs.length ∧
    st'.scene_results.length = rs.length ∧
    ∀ i : Nat, i < rs.length →
      (st'.scene_results[i]?).map SceneResult.scene_id =
        (catalog[i]?).map SceneRecord.scene_id := by
  subst hst
  have hfresh := freshSession_eq catalog raw hraw
  obtain ⟨h1, h2, h3⟩ :=
    run_scenes catalog rs (catalog.map SceneRecord.scene_id)
      (freshSession catalog raw) (pyStrip raw)
      (by rw [hfresh])
      (by simpa using hn)
      (by rw [hfresh]; simpa using hn)
  rw [hfresh] at h2 h3 ⊢
  simp only at h2 h3
  have hres : (run catalog
      (List.zipWith Event.saveScene (catalog.map SceneRecord.scene_id) rs)
      { ldapid := some (pyStrip raw)
        scene_idx := 0
        scene_results := []
        submitted_movie := false
        store := [(pyKey (some (pyStrip raw)),
          { ldapid := some (pyStrip raw)
            completed_scenes := 0
            total_scenes := catalog.length
            scene_level := []
            movie_level := none })] }).scene_results =
      List.zipWith mkResult (catalog.take rs.length) rs := by
    rw [h3]
    simp
  refine ⟨by rw [h2]; omega, ?_, ?_⟩
  · rw [hres]
    simp [List.length_zipWith, List.length_take]
    omega
  · intro i hi
    rw [hres]
    have htk : ((catalog.take rs.length)[i]?).map SceneRecord.scene_id =
        (catalog[i]?).map SceneRecord.scene_id := by
      rw [List.getElem?_take_of_lt hi]
    rw [← htk]
    exact zipWith_mkResult_get (catalog.take rs.length) rs i
      (by simp [List.length_take]; omega) hi

/-- Closed instance of `scene_flow_in_order`: the two-scene demo run
ends with cursor 2, two results, and recorded ids `s1`, `s2` in catalog
order. -/
theorem scene_flow_in_order_witness :
    pyStrip "abc" ≠ "" ∧
    demoDone.scene_idx = 2 ∧
    demoDone.scene_results.length = 2 ∧
    (demoDone.scene_results[0]?).map SceneResult.scene_id = some "s1" ∧
    (demoDone.scene_results[1]?).map SceneResult.scene_id = some "s2" := by
  have h := scene_flow_in_order demoCatalog "abc" [demoInput, demoInput] demoDone
    (by decide) (by decide) (by decide) (by decide)
  exact ⟨by decide, h.1, h.2.1,
    (h.2.2 0 (by decide)).trans (by decide),
    (h.2.2 1 (by decide)).trans (by decide)⟩

/-! ### C2: shape of every persisted snapshot -/

/-- The invariant holds initially. -/
theorem inv_init (catalog : List SceneRecord) : Inv catalog initState := by
  simp [Inv, initState]

/-- Each processed event preserves the invariant. -/
theorem inv_runEvent {catalog : List SceneRecord} {st : AppState} (e : Event)
    (h : Inv catalog st) : Inv catalog (runEvent catalog e st) := by
  unfold runEvent
  cases hs : step catalog e st with
  | error _ => exact h
  | ok st' =>
    cases e with
    | submitIdentity raw =>
      simp only [step] at hs
      split_ifs at hs with h1 h2
      rw [Except.ok.injEq] at hs
      subst hs
      intro hm
      simp only [save_progress] at hm
      have := (h hm).2
      rw [not_not] at h1
      exact absurd h1 this
    | saveScene sid inp =>
      simp only [step] at hs
      split_ifs at hs with h1 h2
      cases hget : get_scene catalog st with
      | none => rw [hget] at hs; exact absurd hs (by simp)
      | some sc =>
        rw [hget] at hs
        rw [Except.ok.injEq] at hs
        subst hs
        intro hm
        simp only [save_progress] at hm
        have := (h hm).1
        have := get_scene_some_lt hget
        omega
    | submitFinal inp =>
      simp only [step] at hs
      split_ifs at hs with h1 h2 h3 h4
      rw [Except.ok.injEq] at hs
      subst hs
      intro _
      constructor
      · simpa [save_progress] using get_scene_none_le (by simpa using h3)
      · simp [save_progress, h1]

/-- Event sequences preserve the invariant. -/
theorem inv_run (catalog : List SceneRecord) :
    ∀ (es : List Event) (st : AppState), Inv catalog st → Inv catalog (run catalog es st)
  | [], _, h => h
  | e :: es, st, h => inv_run catalog es _ (inv_runEvent e h)

/-- Every reachable state satisfies the invariant. -/
theorem reachable_inv {catalog : List SceneRecord} {st : AppState}
    (h : reachable catalog st) : Inv catalog st := by
  obtain ⟨es, hes⟩ := h
  rw [← hes]
  exact inv_run catalog es initState (inv_init catalog)

/-- C2: every successful interaction from a reachable state writes
exactly one new document, and that document has a string identity, a
completed-scenes count equal to the cursor, a total equal to the
catalog size, the ordered scene results, and a movie-level entry
exactly when the session holds a movie-level result. -/
theorem save_shape (catalog : List SceneRecord) (st st' : AppState) (e : Event)
    (hr : reachable catalog st) (h : step catalog e st = .ok st') :
    ∃ u snap, st'.store = (pyKey (some u), snap) :: st.store ∧
      snap.ldapid = some u ∧
      snap.completed_scenes = st'.scene_idx ∧
      snap.total_scenes = catalog.length ∧
      snap.scene_level = st'.scene_results ∧
      snap.movie_level.isSome = st'.submitted_movie := by
  have hinv := reachable_inv hr
  cases e with
  | submitIdentity raw =>
    simp only [step] at h
    split_ifs at h with h1 h2
    rw [Except.ok.injEq] at h
    subst h
    rw [not_not] at h1
    have hsub : st.submitted_movie = false := by
      by_contra hc
      rw [Bool.not_eq_false] at hc
      exact absurd h1 (hinv hc).2
    refine ⟨pyStrip raw,
      mkSnapshot catalog.length { st with ldapid := some (pyStrip raw) } none,
      ?_, ?_, ?_, ?_, ?_, ?_⟩ <;>
      simp [save_progress, mkSnapshot, hsub]
  | saveScene sid inp =>
    simp only [step] at h
    split_ifs at h with h1 h2
    cases hget : get_scene catalog st with
    | none => rw [hget] at h; exact absurd h (by simp)
    | some sc =>
      rw [hget] at h
      rw [Except.ok.injEq] at h
      subst h
      obtain ⟨u, hu⟩ := Option.ne_none_iff_exists'.mp h1
      have hsub : st.submitted_movie = false := by
        by_contra hc
        rw [Bool.not_eq_false] at hc
        have := (hinv hc).1
        have := get_scene_some_lt hget
        omega
      refine ⟨u,
        mkSnapshot catalog.length
          { st with
            scene_results := st.scene_results ++ [mkResult sc inp]
            scene_idx := st.scene_idx + 1 } none,
        ?_, ?_, ?_, ?_, ?_, ?_⟩ <;>
        simp [save_progress, mkSnapshot, hu, hsub]
  | submitFinal inp =>
    simp only [step] at h
    split_ifs at h with h1 h2 h3 h4
    rw [Except.ok.injEq] at h
    subst h
    obtain ⟨u, hu⟩ := Option.ne_none_iff_exists'.mp h1
    refine ⟨u, mkSnapshot catalog.length st (some inp), ?_, ?_, ?_, ?_, ?_, ?_⟩ <;>
      simp [save_progress, mkSnapshot, hu]

/-- Closed instance of `save_shape`: the final submission of the
completed demo run writes one document of the required shape. -/
theorem save_shape_witness :
    step demoCatalog (.submitFinal demoMovie) demoDone = .ok demoComplete ∧
    (∃ u snap, demoComplete.store = (pyKey (some u), snap) :: demoDone.store ∧
      snap.ldapid = some u ∧
      snap.completed_scenes = demoComplete.scene_idx ∧
      snap.total_scenes = demoCatalog.length ∧
      snap.scene_level = demoComplete.scene_results ∧
      snap.movie_level.isSome = demoComplete.submitted_movie) :=
  ⟨by decide,
   save_shape demoCatalog demoDone demoComplete (.submitFinal demoMovie)
     ⟨[.submitIdentity "abc", .saveScene "s1" demoInput, .saveScene "s2" demoInput],
      by decide⟩
     (by decide)⟩

/-- Closed instance of `empty_catalog_behavior` at identity `abc`. -/
theorem empty_catalog_behavior_witness :
    pyStrip "abc" ≠ "" ∧
    (∃ st', step ([] : List SceneRecord) (.submitIdentity "abc") initState = .ok st' ∧
      st'.ldapid = some (pyStrip "abc") ∧
      get_scene [] st' = none ∧
      progressValue (List.length ([] : List SceneRecord)) st' = .error () ∧
      (∀ inp, step ([] : List SceneRecord) (.submitFinal inp) st' =
        .error .zeroDivisionError) ∧
      ∀ sid inp, step ([] : List SceneRecord) (.saveScene sid inp) st' =
        .error .zeroDivisionError) :=
  ⟨by decide, empty_catalog_behavior "abc" (by decide)⟩

end StreamlitUI
